import Mathlib

/-!
Shallow embedding of the metatype Rust typegraph builder layer
(`src/typegraph/rust/typegraph/src/t.rs` and
`src/typegraph/rust/src/runtimes/http.rs`).

The external engine (the `wasm::with_core` / `wasm::with_runtimes` boundary)
is modelled as an abstract responder together with an explicit trace of the
boundary calls issued so far; every builder `build` becomes an explicit
state-passing function `Engine → trace → Except Err α × trace`.
-/

namespace Metatype

/-- Node identifiers are `u32` in the source (`TypeId`); ids only flow through
this layer unchanged, so they are modelled as `Nat`. -/
abbrev TypeId := Nat

abbrev MaterializerId := Nat

abbrev RuntimeId := Nat

/-- Source `u32::MAX`, the sentinel child/materializer id used by the `Default`
impls of `TypeOptional`, `TypeList` and `TypeFunc` in `t.rs`. -/
def u32Max : Nat := 4294967295

/-- The crate's `Error` type (`error.rs`, outside the given sources) is opaque
to this layer: errors are only propagated, never inspected. -/
abbrev Err := String

/-- Policy specs are produced by `AsPolicyChain::as_chain` (outside the given
sources) and are opaque to this layer; modelled as their textual reference. -/
abbrev PolicySpec := String

/-- Source `core::TypeBase`: shared base metadata, with the `Default` impl of
`t.rs` lines 184-193. -/
structure TypeBase where
  name : Option String
  runtime_config : Option (List (String × String))
  as_id : Bool
deriving DecidableEq

def TypeBase.default : TypeBase :=
  { name := none, runtime_config := none, as_id := false }

/-- Source `core::TypeInteger` (bounds are `i32` in the source, modelled as `Int`),
with the `Default` impl of `t.rs` lines 218-230. -/
structure TypeInteger where
  min : Option Int
  max : Option Int
  exclusive_minimum : Option Int
  exclusive_maximum : Option Int
  multiple_of : Option Int
  enumeration : Option (List Int)
deriving DecidableEq

def TypeInteger.default : TypeInteger :=
  { min := none, max := none, exclusive_minimum := none,
    exclusive_maximum := none, multiple_of := none, enumeration := none }

/-- Source `core::TypeOptional`, with the `Default` impl of `t.rs` lines 445-452:
the child id defaults to the sentinel `u32::MAX`. -/
structure TypeOptional where
  of : TypeId
  default_item : Option String
deriving DecidableEq

def TypeOptional.default : TypeOptional :=
  { of := u32Max, default_item := none }

/-- Source `core::TypeList`, with the `Default` impl of `t.rs` lines 491-500:
the child id defaults to the sentinel `u32::MAX`. -/
structure TypeList where
  of : TypeId
  min : Option Nat
  max : Option Nat
  unique_items : Option Bool
deriving DecidableEq

def TypeList.default : TypeList :=
  { of := u32Max, min := none, max := none, unique_items := none }

/-- Source `core::TypeUnion`, with the `Default` impl of `t.rs` lines 549-556. -/
structure TypeUnion where
  variants : List TypeId
deriving DecidableEq

def TypeUnion.default : TypeUnion := { variants := [] }

/-- Source `core::TypeStruct`, with the `Default` impl of `t.rs` lines 638-649. -/
structure TypeStruct where
  props : List (String × TypeId)
  additional_props : Bool
  min : Option Nat
  max : Option Nat
  enumeration : Option (List String)
deriving DecidableEq

def TypeStruct.default : TypeStruct :=
  { props := [], additional_props := false, min := none, max := none,
    enumeration := none }

/-- Source `core::TypeFunc` (the `ParameterTransform` payload is opaque to this layer
and modelled as its serialized form), with the `Default` impl of `t.rs`
lines 692-703: child and materializer ids default to `u32::MAX`. -/
structure TypeFunc where
  inp : TypeId
  out : TypeId
  parameter_transform : Option String
  mat : MaterializerId
  rate_calls : Bool
  rate_weight : Option Nat
deriving DecidableEq

def TypeFunc.default : TypeFunc :=
  { inp := u32Max, out := u32Max, parameter_transform := none, mat := u32Max,
    rate_calls := false, rate_weight := none }

/-- Source `runtimes::HttpMethod`. -/
inductive HttpMethod where
  | get
  | post
  | put
  | patch
  | delete
deriving DecidableEq

/-- Source `impl Default for HttpMethod` (`http.rs` lines 14-18): `Get`. -/
def HttpMethod.default : HttpMethod := .get

/-- Source `runtimes::Effect`: effect classification with idempotency flag on the
mutating variants. -/
inductive Effect where
  | read
  | create (idempotent : Bool)
  | update (idempotent : Bool)
  | delete (idempotent : Bool)
deriving DecidableEq

/-- Modelled from the spec: the `Default` impl of `Effect` lives in the
generated wasm bindings, outside the given sources; per the spec's
"GET→Read" default-effect rule it is `Read`. -/
def Effect.default : Effect := .read

/-- Source `runtimes::BaseMaterializer`. -/
structure BaseMaterializer where
  runtime : RuntimeId
  effect : Effect
deriving DecidableEq

/-- Source `runtimes::MaterializerHttpRequest`. The source field `header_prefix`
is named `headerPfx` here. -/
structure MaterializerHttpRequest where
  method : HttpMethod
  path : String
  content_type : Option String
  headerPfx : Option String
  query_fields : Option (List String)
  rename_fields : Option (List (String × String))
  body_fields : Option (List String)
  auth_token_field : Option String
deriving DecidableEq

/-- One call across the engine boundary, tagged by the boundary function
invoked (`call_integerb`, `call_refb`, `call_rename_type`, ...) and carrying
the exact payload the builder layer passes. -/
inductive EngineCall where
  | integerb (data : TypeInteger) (base : TypeBase)
  | optionalb (data : TypeOptional) (base : TypeBase)
  | listb (data : TypeList) (base : TypeBase)
  | unionb (data : TypeUnion) (base : TypeBase)
  | structb (data : TypeStruct) (base : TypeBase)
  | funcb (data : TypeFunc)
  | refb (name : String) (attributes : List (String × String))
  | renameType (id : TypeId) (name : String)
  | withPolicy (id : TypeId) (chain : List PolicySpec)
  | withInjection (id : TypeId) (injection : String)
  | httpRequest (base : BaseMaterializer) (options : MaterializerHttpRequest)
deriving DecidableEq

/-- The external engine: given the calls already issued in this session and
the new call, it answers with a fresh id or an error. The builder layer
never interprets the answer, so the engine is kept fully abstract. -/
structure Engine where
  respond : List EngineCall → EngineCall → Except Err Nat

/-- A well-behaved engine for concrete evaluation: every call succeeds and
is answered with the next fresh id (the number of calls issued so far). -/
def freshEngine : Engine := ⟨fun s _ => .ok s.length⟩

/-- A computation of the builder layer: it may issue engine calls (appended
to the trace) and yields a value or an error. `Result<T>` in the source. -/
def BuildM (α : Type) : Type :=
  Engine → List EngineCall → Except Err α × List EngineCall

/-- Source `Ok(_)`: no engine call, no failure. -/
def BuildM.pure {α : Type} (a : α) : BuildM α := fun _ s => (.ok a, s)

/-- Sequencing with the `?` operator: on error the continuation never runs
(and in particular issues no engine call). -/
def BuildM.bind {α β : Type} (x : BuildM α) (f : α → BuildM β) : BuildM β :=
  fun eng s =>
    match x eng s with
    | (.ok a, s') => f a eng s'
    | (.error e, s') => (.error e, s')

/-- Source `Result::map`. -/
def BuildM.map {α β : Type} (f : α → β) (x : BuildM α) : BuildM β :=
  fun eng s =>
    match x eng s with
    | (.ok a, s') => (.ok (f a), s')
    | (.error e, s') => (.error e, s')

/-- Issue one engine call, recording it on the trace and returning the
engine's raw numeric answer. -/
def callEngine (c : EngineCall) : BuildM Nat :=
  fun eng s => (eng.respond s c, s ++ [c])

/-- Source `t::TypeDef`: a node handle, wrapping the engine-issued id. -/
structure TypeDef where
  id : TypeId
deriving DecidableEq

/-- Source `Ok(TypeDef { id: wasm::with_core(...)? })`: issue one allocation call
and wrap the returned id into a handle. -/
def allocCall (c : EngineCall) : BuildM TypeDef :=
  fun eng s => (TypeDef.mk <$> eng.respond s c, s ++ [c])

/-- Source `TypeDef::rename` (`t.rs` lines 36-39): one `call_rename_type` engine
call; the returned id replaces the handle's id in the returned handle. -/
def TypeDef.rename (d : TypeDef) (name : String) : BuildM TypeDef :=
  fun eng s =>
    ((fun n => { d with id := n }) <$> eng.respond s (.renameType d.id name),
     s ++ [.renameType d.id name])

/-- Source `TypeDef::with_policy` (`t.rs` lines 41-47): one `call_with_policy`
engine call with the chain from `policy.as_chain()`, taken here directly. -/
def TypeDef.with_policy (d : TypeDef) (chain : List PolicySpec) : BuildM TypeDef :=
  fun eng s =>
    ((fun n => { d with id := n }) <$> eng.respond s (.withPolicy d.id chain),
     s ++ [.withPolicy d.id chain])

/-- Source `TypeDef::with_injection` (`t.rs` lines 75-78): one `call_with_injection`
engine call with the serialized injection. -/
def TypeDef.with_injection (d : TypeDef) (injection : String) : BuildM TypeDef :=
  fun eng s =>
    ((fun n => { d with id := n }) <$> eng.respond s (.withInjection d.id injection),
     s ++ [.withInjection d.id injection])

/-- Source `t::TypeBuilder`: anything that finalizes to a node handle. -/
class TypeBuilder (α : Type) where
  build : α → BuildM TypeDef

/-- Source `TypeBuilder::into_id`: `self.build().map(|ty| ty.id)`. -/
def TypeBuilder.into_id {α : Type} [TypeBuilder α] (a : α) : BuildM TypeId :=
  BuildM.map TypeDef.id (TypeBuilder.build a)

/-- Source `impl TypeBuilder for TypeId` (`t.rs` lines 160-164):
`Ok(TypeDef { id: self })`. -/
instance : TypeBuilder TypeId := ⟨fun n => BuildM.pure (TypeDef.mk n)⟩

/-- Source `impl TypeBuilder for TypeDef` (`t.rs` lines 172-176): `Ok(self)`. -/
instance : TypeBuilder TypeDef := ⟨fun d => BuildM.pure d⟩

/-- Source `impl<T: TypeBuilder> TypeBuilder for Result<T>` (`t.rs` lines 178-182):
`self.and_then(|ty| ty.build())`. -/
instance {α : Type} [TypeBuilder α] : TypeBuilder (Except Err α) :=
  ⟨fun r =>
    fun eng s =>
      match r with
      | .ok a => TypeBuilder.build a eng s
      | .error e => (.error e, s)⟩

/-- Source `t::IntegerBuilder`. -/
structure IntegerBuilder where
  data : TypeInteger
  base : TypeBase
deriving DecidableEq

/-- Source `IntegerBuilder::min` (`t.rs` lines 239-242). -/
def IntegerBuilder.min (b : IntegerBuilder) (m : Int) : IntegerBuilder :=
  { b with data := { b.data with min := some m } }

/-- Source `IntegerBuilder::max` (`t.rs` lines 244-247). -/
def IntegerBuilder.max (b : IntegerBuilder) (m : Int) : IntegerBuilder :=
  { b with data := { b.data with max := some m } }

/-- Source `impl TypeBuilder for IntegerBuilder` (`t.rs` lines 270-276): one
`call_integerb` with the accumulated data and base, no local validation. -/
instance : TypeBuilder IntegerBuilder :=
  ⟨fun b => allocCall (.integerb b.data b.base)⟩

/-- Source `t::integer()`: `IntegerBuilder::default()`. -/
def integer : IntegerBuilder :=
  { data := TypeInteger.default, base := TypeBase.default }

/-- Source `t::OptionalBuilder`. -/
structure OptionalBuilder where
  base : TypeBase
  data : TypeOptional
deriving DecidableEq

/-- Source `#[derive(Default)]` on `OptionalBuilder`: field-wise defaults, so the
child id is the sentinel `u32::MAX`. -/
def OptionalBuilder.default : OptionalBuilder :=
  { base := TypeBase.default, data := TypeOptional.default }

/-- Source `impl TypeBuilder for OptionalBuilder` (`t.rs` lines 467-473): one
`call_optionalb`, no local check of the stored child id. -/
instance : TypeBuilder OptionalBuilder :=
  ⟨fun b => allocCall (.optionalb b.data b.base)⟩

/-- Source `t::optional(ty)` (`t.rs` lines 481-489): finalizes the child first
(`ty.into_id()?`), then returns the pending builder without engine call. -/
def optional {α : Type} [TypeBuilder α] (ty : α) : BuildM OptionalBuilder :=
  BuildM.bind (TypeBuilder.into_id ty) fun i =>
    BuildM.pure { base := TypeBase.default, data := { of := i, default_item := none } }

/-- Source `t::ListBuilder`. -/
structure ListBuilder where
  base : TypeBase
  data : TypeList
deriving DecidableEq

/-- Source `#[derive(Default)]` on `ListBuilder`: field-wise defaults, so the child
id is the sentinel `u32::MAX`. -/
def ListBuilder.default : ListBuilder :=
  { base := TypeBase.default, data := TypeList.default }

/-- Source `impl TypeBuilder for ListBuilder` (`t.rs` lines 525-531): one
`call_listb`, no local check of the stored child id. -/
instance : TypeBuilder ListBuilder :=
  ⟨fun b => allocCall (.listb b.data b.base)⟩

/-- Source `t::list(ty)` (`t.rs` lines 539-547). -/
def list {α : Type} [TypeBuilder α] (ty : α) : BuildM ListBuilder :=
  BuildM.bind (TypeBuilder.into_id ty) fun i =>
    BuildM.pure { base := TypeBase.default, data := { TypeList.default with of := i } }

/-- Source `t::UnionBuilder`. -/
structure UnionBuilder where
  base : TypeBase
  data : TypeUnion
deriving DecidableEq

/-- Source `variants.into_iter().map(|ty| ty.into_id()).collect::<Result<_>>()`:
finalizes the variants left to right, stopping at the first failure. -/
def intoIds {α : Type} [TypeBuilder α] : List α → BuildM (List TypeId)
  | [] => BuildM.pure []
  | ty :: rest =>
    BuildM.bind (TypeBuilder.into_id ty) fun i =>
      BuildM.bind (intoIds rest) fun is =>
        BuildM.pure (i :: is)

/-- Source `impl TypeBuilder for UnionBuilder` (`t.rs` lines 571-577): one
`call_unionb` with the accumulated variants, however many there are. -/
instance : TypeBuilder UnionBuilder :=
  ⟨fun b => allocCall (.unionb b.data b.base)⟩

/-- Source `t::union(variants)` (`t.rs` lines 585-595): collects the variant ids
(no emptiness check) and returns the pending builder. -/
def union {α : Type} [TypeBuilder α] (variants : List α) : BuildM UnionBuilder :=
  BuildM.bind (intoIds variants) fun is =>
    BuildM.pure { base := TypeBase.default, data := { variants := is } }

/-- Source `t::StructBuilder`. -/
structure StructBuilder where
  base : TypeBase
  data : TypeStruct
deriving DecidableEq

/-- Source `StructBuilder::prop` (`t.rs` lines 657-661): finalizes the child and
pushes the `(name, id)` pair at the end of the property list; the name is
never inspected, so duplicates are accepted. -/
def StructBuilder.prop {α : Type} [TypeBuilder α] (b : StructBuilder)
    (name : String) (ty : α) : BuildM StructBuilder :=
  BuildM.bind (TypeBuilder.into_id ty) fun i =>
    BuildM.pure { b with data := { b.data with props := b.data.props ++ [(name, i)] } }

/-- Source `impl TypeBuilder for StructBuilder` (`t.rs` lines 674-680): one
`call_structb` with the accumulated properties. -/
instance : TypeBuilder StructBuilder :=
  ⟨fun b => allocCall (.structb b.data b.base)⟩

/-- Source `t::r#struct()`: `StructBuilder::default()`. -/
def structb : StructBuilder :=
  { base := TypeBase.default, data := TypeStruct.default }

/-- Source `t::FuncBuilder`. -/
structure FuncBuilder where
  data : TypeFunc
deriving DecidableEq

/-- Source `#[derive(Default)]` on `FuncBuilder`: the input, output and
materializer ids are the sentinel `u32::MAX`. -/
def FuncBuilder.default : FuncBuilder := { data := TypeFunc.default }

/-- Source `impl TypeBuilder for FuncBuilder` (`t.rs` lines 727-733): one
`call_funcb`, no local check of the stored ids. -/
instance : TypeBuilder FuncBuilder :=
  ⟨fun b => allocCall (.funcb b.data)⟩

/-- Source `t::func(inp, out, mat)` (`t.rs` lines 735-748): finalizes input then
output, then returns the pending builder without engine call. -/
def func {α β : Type} [TypeBuilder α] [TypeBuilder β] (inp : α) (out : β)
    (mat : MaterializerId) : BuildM FuncBuilder :=
  BuildM.bind (TypeBuilder.into_id inp) fun i =>
    BuildM.bind (TypeBuilder.into_id out) fun o =>
      BuildM.pure { data := { TypeFunc.default with inp := i, out := o, mat := mat } }

/-- Source `t::RefBuilder`. -/
structure RefBuilder where
  name : String
  attributes : List (String × String)
deriving DecidableEq

/-- Source `impl TypeBuilder for RefBuilder` (`t.rs` lines 777-783): one
`call_refb` carrying the name and attribute pairs. -/
instance : TypeBuilder RefBuilder :=
  ⟨fun b => allocCall (.refb b.name b.attributes)⟩

/-- Source `t::r#ref(name)` (`t.rs` lines 785-790): a named reference with an empty
attribute list. -/
def ref (name : String) : RefBuilder := { name := name, attributes := [] }

/-- Source `impl TypeBuilder for &str` (`t.rs` lines 166-170): `r#ref(self).build()`. -/
instance : TypeBuilder String :=
  ⟨fun name => TypeBuilder.build (ref name)⟩

/-- Source `http::HttpRequestBuilder`. The source field `header_prefix` is named
`headerPfx` here; the setter methods `content_type`, `header_prefix`,
`query_fields` and `effect` are named with a `set` prefixed to avoid
clashing with the field names. -/
structure HttpRequestBuilder where
  runtime : RuntimeId
  inp : TypeId
  out : TypeId
  method : HttpMethod
  path : String
  content_type : Option String
  headerPfx : Option String
  query_fields : Option (List String)
  effect : Effect
deriving DecidableEq

/-- Source `#[derive(Default)]` on `HttpRequestBuilder`: field-wise defaults
(`RuntimeId`/`TypeId` default to 0, method to `Get`, effect to its
bindings-level default). -/
def HttpRequestBuilder.default : HttpRequestBuilder :=
  { runtime := 0, inp := 0, out := 0, method := HttpMethod.default,
    path := "", content_type := none, headerPfx := none,
    query_fields := none, effect := Effect.default }

/-- Source `HttpRequestBuilder::content_type` (`http.rs` lines 58-61). -/
def HttpRequestBuilder.setContentType (b : HttpRequestBuilder) (content : String) :
    HttpRequestBuilder :=
  { b with content_type := some content }

/-- Source `HttpRequestBuilder::header_prefix` (`http.rs` lines 63-66). -/
def HttpRequestBuilder.setHeaderPfx (b : HttpRequestBuilder) (p : String) :
    HttpRequestBuilder :=
  { b with headerPfx := some p }

/-- Source `HttpRequestBuilder::query_fields` (`http.rs` lines 68-71):
`self.header_prefix = Some(fields.into_iter().map(|f| f.to_string()).collect());`
— the field names are collected into a single `String` (concatenation) and
stored into the `header_prefix` field; the `query_fields` field is not
touched. -/
def HttpRequestBuilder.setQueryFields (b : HttpRequestBuilder) (fields : List String) :
    HttpRequestBuilder :=
  { b with headerPfx := some (String.join fields) }

/-- Source `HttpRequestBuilder::effect` (`http.rs` lines 73-76). -/
def HttpRequestBuilder.setEffect (b : HttpRequestBuilder) (e : Effect) :
    HttpRequestBuilder :=
  { b with effect := e }

/-- The `BaseMaterializer` value constructed in
`HttpRequestBuilder::build` (`http.rs` lines 35-38). -/
def HttpRequestBuilder.baseMat (b : HttpRequestBuilder) : BaseMaterializer :=
  { runtime := b.runtime, effect := b.effect }

/-- The `MaterializerHttpRequest` value constructed in
`HttpRequestBuilder::build` (`http.rs` lines 40-49). -/
def HttpRequestBuilder.matOptions (b : HttpRequestBuilder) : MaterializerHttpRequest :=
  { method := b.method, path := b.path, content_type := b.content_type,
    headerPfx := b.headerPfx, query_fields := b.query_fields,
    rename_fields := none, body_fields := none, auth_token_field := none }

/-- Source `impl TypeBuilder for HttpRequestBuilder` (`http.rs` lines 33-55): one
`call_http_request` registering the materializer, then
`t::func(self.inp.build()?, self.out.build()?, mat_id)?.build()`. -/
def HttpRequestBuilder.build (b : HttpRequestBuilder) : BuildM TypeDef :=
  BuildM.bind (callEngine (.httpRequest b.baseMat b.matOptions)) fun matId =>
    BuildM.bind (TypeBuilder.build b.inp) fun di =>
      BuildM.bind (TypeBuilder.build b.out) fun dout =>
        BuildM.bind (func di dout matId) fun fb =>
          TypeBuilder.build fb

instance : TypeBuilder HttpRequestBuilder := ⟨HttpRequestBuilder.build⟩

/-- Source `http::HttpRuntime`: the registered runtime's id (registration itself
is an engine-boundary concern outside the claims considered here). -/
structure HttpRuntime where
  id : RuntimeId
deriving DecidableEq

/-- Source `HttpRuntime::request` (`http.rs` lines 127-140): finalizes input then
output and fills the remaining fields from `Default::default()`. -/
def HttpRuntime.request {α : Type} [TypeBuilder α] (rt : HttpRuntime)
    (method : HttpMethod) (inp out : α) : BuildM HttpRequestBuilder :=
  BuildM.bind (TypeBuilder.build inp) fun i =>
    BuildM.bind (TypeBuilder.build out) fun o =>
      BuildM.pure
        { HttpRequestBuilder.default with
            runtime := rt.id, method := method, inp := i.id, out := o.id }

/-- Source `HttpRuntime::get` (`http.rs` lines 103-105): no effect override, so the
default effect stands. -/
def HttpRuntime.get {α : Type} [TypeBuilder α] (rt : HttpRuntime) (inp out : α) :
    BuildM HttpRequestBuilder :=
  rt.request .get inp out

/-- Source `HttpRuntime::post` (`http.rs` lines 107-110). -/
def HttpRuntime.post {α : Type} [TypeBuilder α] (rt : HttpRuntime) (inp out : α) :
    BuildM HttpRequestBuilder :=
  BuildM.map (fun r => r.setEffect (.create false)) (rt.request .post inp out)

/-- Source `HttpRuntime::put` (`http.rs` lines 112-115). -/
def HttpRuntime.put {α : Type} [TypeBuilder α] (rt : HttpRuntime) (inp out : α) :
    BuildM HttpRequestBuilder :=
  BuildM.map (fun r => r.setEffect (.update false)) (rt.request .put inp out)

/-- Source `HttpRuntime::patch` (`http.rs` lines 117-120). -/
def HttpRuntime.patch {α : Type} [TypeBuilder α] (rt : HttpRuntime) (inp out : α) :
    BuildM HttpRequestBuilder :=
  BuildM.map (fun r => r.setEffect (.update false)) (rt.request .patch inp out)

/-- Source `HttpRuntime::delete` (`http.rs` lines 122-125). -/
def HttpRuntime.delete {α : Type} [TypeBuilder α] (rt : HttpRuntime) (inp out : α) :
    BuildM HttpRequestBuilder :=
  BuildM.map (fun r => r.setEffect (.delete false)) (rt.request .delete inp out)

/-- C1: finalizing an outcome (`Result`) propagates an error unchanged with
no engine call (the trace is untouched), and finalizing a success finalizes
the contained value; hence a chained sequence of builder calls aborts at
its first failure with no later engine call. -/
theorem result_build_short_circuits {α : Type} [TypeBuilder α]
    (e : Err) (a : α) (eng : Engine) (s : List EngineCall) :
    TypeBuilder.build (Except.error e : Except Err α) eng s = (Except.error e, s)
    ∧ TypeBuilder.build (Except.ok a : Except Err α) eng s = TypeBuilder.build a eng s :=
  ⟨rfl, rfl⟩

/-- C2: finalizing an already-issued handle (either as a `TypeDef` or as a
raw `TypeId`) returns the same identifier and leaves the engine trace
untouched: finalize is the identity on allocated handles. -/
theorem handle_build_identity (d : TypeDef) (n : TypeId)
    (eng : Engine) (s : List EngineCall) :
    TypeBuilder.build d eng s = (Except.ok d, s)
    ∧ TypeBuilder.build (n : TypeId) eng s = (Except.ok (TypeDef.mk n), s) :=
  ⟨rfl, rfl⟩

/-- C3: finalizing a bare textual name is the same computation as finalizing
the named-reference builder for that name, and it issues exactly one
allocate-reference engine call carrying the name and an empty attribute
list, yielding the handle the engine returns. -/
theorem str_build_is_named_ref (name : String) (eng : Engine) (s : List EngineCall) :
    TypeBuilder.build name eng s = TypeBuilder.build (ref name) eng s
    ∧ TypeBuilder.build name eng s
      = (TypeDef.mk <$> eng.respond s (.refb name []), s ++ [.refb name []]) :=
  ⟨rfl, rfl⟩

/-- C6 counterexample: a union builder constructed with zero variants is NOT
rejected before an engine call — on the always-succeeding engine it
finalizes successfully and issues one allocate-union call with an empty
variant list, contradicting the claimed local malformed-configuration
rejection. -/
theorem union_empty_counterexample :
    BuildM.bind (union ([] : List TypeId)) TypeBuilder.build freshEngine []
      = (Except.ok (TypeDef.mk 0), [EngineCall.unionb { variants := [] } TypeBase.default])
    ∧ (BuildM.bind (union ([] : List TypeId)) TypeBuilder.build freshEngine []).2.length = 1 :=
  ⟨rfl, rfl⟩

/-- C6 amended: finalizing a union builder constructed with zero variants is
not rejected locally; it issues the allocate-union engine call with an
empty variant list and returns the engine's response. -/
theorem union_empty_calls_engine (eng : Engine) (s : List EngineCall) :
    BuildM.bind (union ([] : List TypeId)) TypeBuilder.build eng s
      = (TypeDef.mk <$> eng.respond s (.unionb { variants := [] } TypeBase.default),
         s ++ [.unionb { variants := [] } TypeBase.default]) :=
  rfl

/-- C9: an integer builder with any minimum and maximum (in particular
min = 10, max = 5) finalizes with no local range check: it issues exactly
one allocation call carrying both bounds verbatim, and on a succeeding
engine the finalization succeeds. -/
theorem integer_bounds_forwarded_verbatim (m M : Int) (eng : Engine) (s : List EngineCall) :
    TypeBuilder.build ((integer.min m).max M) eng s
      = (TypeDef.mk <$> eng.respond s
          (.integerb { TypeInteger.default with min := some m, max := some M } TypeBase.default),
         s ++ [.integerb { TypeInteger.default with min := some m, max := some M } TypeBase.default])
    ∧ TypeBuilder.build ((integer.min 10).max 5) freshEngine s
      = (Except.ok (TypeDef.mk s.length),
         s ++ [.integerb { TypeInteger.default with min := some 10, max := some 5 } TypeBase.default]) :=
  ⟨rfl, rfl⟩

/-- C10: the default-constructed optional, list and function builders carry
the sentinel id `u32::MAX` for their child/materializer slots, and
finalizing them issues the allocation engine call with that sentinel
(succeeding on a succeeding engine) instead of failing locally. -/
theorem default_builders_carry_sentinel (eng : Engine) (s : List EngineCall) :
    TypeOptional.default.of = u32Max
    ∧ TypeList.default.of = u32Max
    ∧ TypeFunc.default.inp = u32Max
    ∧ TypeFunc.default.out = u32Max
    ∧ TypeFunc.default.mat = u32Max
    ∧ TypeBuilder.build OptionalBuilder.default eng s
      = (TypeDef.mk <$> eng.respond s (.optionalb TypeOptional.default TypeBase.default),
         s ++ [.optionalb TypeOptional.default TypeBase.default])
    ∧ TypeBuilder.build ListBuilder.default eng s
      = (TypeDef.mk <$> eng.respond s (.listb TypeList.default TypeBase.default),
         s ++ [.listb TypeList.default TypeBase.default])
    ∧ TypeBuilder.build FuncBuilder.default eng s
      = (TypeDef.mk <$> eng.respond s (.funcb TypeFunc.default),
         s ++ [.funcb TypeFunc.default])
    ∧ TypeBuilder.build OptionalBuilder.default freshEngine s
      = (Except.ok (TypeDef.mk s.length),
         s ++ [.optionalb TypeOptional.default TypeBase.default]) :=
  ⟨rfl, rfl, rfl, rfl, rfl, rfl, rfl, rfl, rfl⟩

/-- C4: each transform (rename, attach-policy, attach-injection) issues
exactly one engine call and returns a handle whose identifier is the one
the engine answered with; the input handle's identifier is not touched, and
on a fresh-id engine the new handle is distinct from any previously
allocated input handle. -/
theorem transforms_issue_one_call (d : TypeDef) (name inj : String)
    (chain : List PolicySpec) (eng : Engine) (s : List EngineCall) (n : TypeId) :
    (eng.respond s (.renameType d.id name) = .ok n →
      d.rename name eng s = (.ok (TypeDef.mk n), s ++ [.renameType d.id name]))
    ∧ (eng.respond s (.withPolicy d.id chain) = .ok n →
      d.with_policy chain eng s = (.ok (TypeDef.mk n), s ++ [.withPolicy d.id chain]))
    ∧ (eng.respond s (.withInjection d.id inj) = .ok n →
      d.with_injection inj eng s = (.ok (TypeDef.mk n), s ++ [.withInjection d.id inj]))
    ∧ (d.id < s.length →
      d.rename name freshEngine s
        = (.ok (TypeDef.mk s.length), s ++ [.renameType d.id name])
      ∧ TypeDef.mk s.length ≠ d) := by
  refine ⟨fun h => ?_, fun h => ?_, fun h => ?_, fun h => ⟨rfl, fun heq => ?_⟩⟩
  · simp only [TypeDef.rename, h]; rfl
  · simp only [TypeDef.with_policy, h]; rfl
  · simp only [TypeDef.with_injection, h]; rfl
  · obtain ⟨i⟩ := d
    simp only [TypeDef.mk.injEq] at heq
    simp only [heq] at h
    exact Nat.lt_irrefl _ h

/-- C4 witness: the transforms evaluated on a concrete previously-allocated
handle and the fresh-id engine. -/
theorem transforms_issue_one_call_witness :
    TypeDef.rename (TypeDef.mk 0) "x" freshEngine [EngineCall.refb "a" []]
      = (.ok (TypeDef.mk 1), [EngineCall.refb "a" [], EngineCall.renameType 0 "x"])
    ∧ TypeDef.with_policy (TypeDef.mk 0) ["p"] freshEngine [EngineCall.refb "a" []]
      = (.ok (TypeDef.mk 1), [EngineCall.refb "a" [], EngineCall.withPolicy 0 ["p"]])
    ∧ TypeDef.with_injection (TypeDef.mk 0) "v" freshEngine [EngineCall.refb "a" []]
      = (.ok (TypeDef.mk 1), [EngineCall.refb "a" [], EngineCall.withInjection 0 "v"])
    ∧ TypeDef.mk 1 ≠ TypeDef.mk 0 :=
  have T := transforms_issue_one_call (TypeDef.mk 0) "x" "v" ["p"] freshEngine
    [EngineCall.refb "a" []] 1
  ⟨T.1 rfl, T.2.1 rfl, T.2.2.1 rfl, (T.2.2.2 (by decide)).2⟩

/-- Sequentially apply `StructBuilder::prop` for each `(name, child-handle)`
pair, mirroring a fluent chain `b.prop(n1, h1)?.prop(n2, h2)?...`. -/
def addProps (b : StructBuilder) : List (String × TypeId) → BuildM StructBuilder
  | [] => BuildM.pure b
  | (n, t) :: rest => BuildM.bind (b.prop n t) fun b' => addProps b' rest

/-- C8: any sequence of `prop` calls with already-issued child handles —
duplicate property names included — is accepted locally with no engine
call, appending the `(name, handle)` pairs in call order; finalizing then
passes exactly that property list to the allocation engine call. -/
theorem struct_props_in_call_order (b : StructBuilder)
    (pairs : List (String × TypeId)) (eng : Engine) (s : List EngineCall) :
    addProps b pairs eng s
      = (.ok { b with data := { b.data with props := b.data.props ++ pairs } }, s)
    ∧ TypeBuilder.build
        { b with data := { b.data with props := b.data.props ++ pairs } } eng s
      = (TypeDef.mk <$> eng.respond s
          (.structb { b.data with props := b.data.props ++ pairs } b.base),
         s ++ [.structb { b.data with props := b.data.props ++ pairs } b.base]) := by
  refine ⟨?_, rfl⟩
  induction pairs generalizing b with
  | nil => simp [addProps, BuildM.pure]
  | cons p rest ih =>
    obtain ⟨n, t⟩ := p
    have h := ih { b with data := { b.data with props := b.data.props ++ [(n, t)] } }
    simp only [addProps, BuildM.bind, StructBuilder.prop, TypeBuilder.into_id,
      BuildM.map, BuildM.pure, TypeBuilder.build] at h ⊢
    rw [h]
    simp

theorem take_append_cons {α : Type} (s : List α) (c : α) (rest : List α) :
    (s ++ c :: rest).take (s.length + 1) = s ++ [c] := by
  induction s with
  | nil => simp
  | cons a s ih => simp [ih]

/-- C5: each HTTP verb constructor yields a route builder whose effect is
the verb's default — GET keeps the default effect `Read`, POST sets
`Create(false)`, PUT and PATCH set `Update(false)`, DELETE sets
`Delete(false)` — an explicit `effect` call overrides the stored effect,
and finalization registers the materializer with exactly the stored effect
(the first engine call carries `BaseMaterializer` built from it). -/
theorem verb_default_effect {α : Type} [TypeBuilder α] (rt : HttpRuntime)
    (inp out : α) (b : HttpRequestBuilder) (e : Effect) (m : Nat)
    (eng engb : Engine) (s s₁ s₂ sb : List EngineCall) (di dout : TypeDef)
    (hi : TypeBuilder.build inp eng s = (.ok di, s₁))
    (ho : TypeBuilder.build out eng s₁ = (.ok dout, s₂)) :
    rt.get inp out eng s
      = (.ok { HttpRequestBuilder.default with
                 runtime := rt.id, method := .get, inp := di.id, out := dout.id }, s₂)
    ∧ rt.post inp out eng s
      = (.ok { HttpRequestBuilder.default with
                 runtime := rt.id, method := .post, inp := di.id, out := dout.id,
                 effect := Effect.create false }, s₂)
    ∧ rt.put inp out eng s
      = (.ok { HttpRequestBuilder.default with
                 runtime := rt.id, method := .put, inp := di.id, out := dout.id,
                 effect := Effect.update false }, s₂)
    ∧ rt.patch inp out eng s
      = (.ok { HttpRequestBuilder.default with
                 runtime := rt.id, method := .patch, inp := di.id, out := dout.id,
                 effect := Effect.update false }, s₂)
    ∧ rt.delete inp out eng s
      = (.ok { HttpRequestBuilder.default with
                 runtime := rt.id, method := .delete, inp := di.id, out := dout.id,
                 effect := Effect.delete false }, s₂)
    ∧ HttpRequestBuilder.default.effect = Effect.read
    ∧ (b.setEffect e).effect = e
    ∧ (engb.respond sb (.httpRequest b.baseMat b.matOptions) = .ok m →
        HttpRequestBuilder.build b engb sb
          = (TypeDef.mk <$> engb.respond (sb ++ [.httpRequest b.baseMat b.matOptions])
              (.funcb { TypeFunc.default with inp := b.inp, out := b.out, mat := m }),
             sb ++ [.httpRequest b.baseMat b.matOptions,
                    .funcb { TypeFunc.default with inp := b.inp, out := b.out, mat := m }])) := by
  refine ⟨?_, ?_, ?_, ?_, ?_, rfl, rfl, fun hm => ?_⟩
  · simp [HttpRuntime.get, HttpRuntime.request, BuildM.bind, BuildM.pure, hi, ho]
  · simp [HttpRuntime.post, HttpRuntime.request, BuildM.bind, BuildM.pure, BuildM.map,
      HttpRequestBuilder.setEffect, hi, ho]
  · simp [HttpRuntime.put, HttpRuntime.request, BuildM.bind, BuildM.pure, BuildM.map,
      HttpRequestBuilder.setEffect, hi, ho]
  · simp [HttpRuntime.patch, HttpRuntime.request, BuildM.bind, BuildM.pure, BuildM.map,
      HttpRequestBuilder.setEffect, hi, ho]
  · simp [HttpRuntime.delete, HttpRuntime.request, BuildM.bind, BuildM.pure, BuildM.map,
      HttpRequestBuilder.setEffect, hi, ho]
  · simp [HttpRequestBuilder.build, BuildM.bind, BuildM.pure, BuildM.map, callEngine,
      TypeBuilder.build, TypeBuilder.into_id, func, allocCall, hm]

/-- C5 witness: the verb constructors and a finalization evaluated on
concrete handles and the fresh-id engine. -/
theorem verb_default_effect_witness :
    HttpRuntime.get (HttpRuntime.mk 3) (5 : TypeId) (7 : TypeId) freshEngine []
      = (.ok { HttpRequestBuilder.default with
                 runtime := 3, method := .get, inp := 5, out := 7 }, [])
    ∧ HttpRuntime.post (HttpRuntime.mk 3) (5 : TypeId) (7 : TypeId) freshEngine []
      = (.ok { HttpRequestBuilder.default with
                 runtime := 3, method := .post, inp := 5, out := 7,
                 effect := Effect.create false }, [])
    ∧ HttpRuntime.put (HttpRuntime.mk 3) (5 : TypeId) (7 : TypeId) freshEngine []
      = (.ok { HttpRequestBuilder.default with
                 runtime := 3, method := .put, inp := 5, out := 7,
                 effect := Effect.update false }, [])
    ∧ HttpRuntime.patch (HttpRuntime.mk 3) (5 : TypeId) (7 : TypeId) freshEngine []
      = (.ok { HttpRequestBuilder.default with
                 runtime := 3, method := .patch, inp := 5, out := 7,
                 effect := Effect.update false }, [])
    ∧ HttpRuntime.delete (HttpRuntime.mk 3) (5 : TypeId) (7 : TypeId) freshEngine []
      = (.ok { HttpRequestBuilder.default with
                 runtime := 3, method := .delete, inp := 5, out := 7,
                 effect := Effect.delete false }, [])
    ∧ HttpRequestBuilder.default.effect = Effect.read
    ∧ (HttpRequestBuilder.default.setEffect (Effect.delete true)).effect = Effect.delete true
    ∧ HttpRequestBuilder.build HttpRequestBuilder.default freshEngine []
      = (TypeDef.mk <$> freshEngine.respond
            [.httpRequest HttpRequestBuilder.default.baseMat HttpRequestBuilder.default.matOptions]
            (.funcb { TypeFunc.default with inp := 0, out := 0, mat := 0 }),
         [.httpRequest HttpRequestBuilder.default.baseMat HttpRequestBuilder.default.matOptions,
          .funcb { TypeFunc.default with inp := 0, out := 0, mat := 0 }]) :=
  have T := verb_default_effect (HttpRuntime.mk 3) (5 : TypeId) (7 : TypeId)
    HttpRequestBuilder.default (Effect.delete true) 0 freshEngine freshEngine
    [] [] [] [] (TypeDef.mk 5) (TypeDef.mk 7) rfl rfl
  ⟨T.1, T.2.1, T.2.2.1, T.2.2.2.1, T.2.2.2.2.1, T.2.2.2.2.2.1, T.2.2.2.2.2.2.1,
   T.2.2.2.2.2.2.2 rfl⟩

/-- C7: the query-fields setter of the HTTP route builder stores the
concatenation of the given field names into the header-prefix field and
leaves the query-fields field unset, so the materializer registration call
(the first engine call of finalization) carries the query fields in the
header-prefix slot and an absent query-fields slot. -/
theorem query_fields_land_in_header_slot (b : HttpRequestBuilder)
    (fields : List String) (eng : Engine) (s : List EngineCall)
    (hq : b.query_fields = none) :
    (b.setQueryFields fields).headerPfx = some (String.join fields)
    ∧ (b.setQueryFields fields).query_fields = none
    ∧ (b.setQueryFields fields).matOptions
      = { b.matOptions with headerPfx := some (String.join fields), query_fields := none }
    ∧ ((b.setQueryFields fields).build eng s).2.take (s.length + 1)
      = s ++ [.httpRequest b.baseMat
          { b.matOptions with headerPfx := some (String.join fields), query_fields := none }] := by
  have hmo : (b.setQueryFields fields).matOptions
      = { b.matOptions with headerPfx := some (String.join fields), query_fields := none } := by
    simp [HttpRequestBuilder.setQueryFields, HttpRequestBuilder.matOptions, hq]
  refine ⟨rfl, hq, hmo, ?_⟩
  have hbm : (b.setQueryFields fields).baseMat = b.baseMat := rfl
  cases hr : eng.respond s (.httpRequest (b.setQueryFields fields).baseMat
      (b.setQueryFields fields).matOptions) with
  | error err =>
    simp only [HttpRequestBuilder.build, BuildM.bind, callEngine, hr]
    rw [← hmo, ← hbm]
    have hlen : (s ++ [EngineCall.httpRequest (b.setQueryFields fields).baseMat
        (b.setQueryFields fields).matOptions]).length = s.length + 1 := by simp
    rw [← hlen, List.take_length]
  | ok m =>
    simp only [HttpRequestBuilder.build, BuildM.bind, callEngine, hr, TypeBuilder.build,
      TypeBuilder.into_id, BuildM.map, BuildM.pure, func, allocCall]
    rw [← hmo, ← hbm]
    have := take_append_cons s
      (EngineCall.httpRequest (b.setQueryFields fields).baseMat
        (b.setQueryFields fields).matOptions)
      [.funcb { TypeFunc.default with inp := b.inp, out := b.out, mat := m }]
    simpa using this

/-- C7 witness: the setter evaluated on the default route builder with two
query field names and the fresh-id engine. -/
theorem query_fields_land_in_header_slot_witness :
    (HttpRequestBuilder.default.setQueryFields ["a", "b"]).headerPfx
      = some (String.join ["a", "b"])
    ∧ (HttpRequestBuilder.default.setQueryFields ["a", "b"]).query_fields = none
    ∧ (HttpRequestBuilder.default.setQueryFields ["a", "b"]).matOptions
      = { HttpRequestBuilder.default.matOptions with
            headerPfx := some (String.join ["a", "b"]), query_fields := none }
    ∧ ((HttpRequestBuilder.default.setQueryFields ["a", "b"]).build freshEngine []).2.take 1
      = [.httpRequest HttpRequestBuilder.default.baseMat
          { HttpRequestBuilder.default.matOptions with
              headerPfx := some (String.join ["a", "b"]), query_fields := none }] :=
  query_fields_land_in_header_slot HttpRequestBuilder.default ["a", "b"]
    freshEngine [] rfl

end Metatype
